import Mathlib

/-!
Shallow embedding of the core of `app.py` (James Hardie technical expert
service): the quick-answer resolver over the static knowledge base, the
provider-fallback chain `generate_response`, the `/api/query` orchestrator
and the `/api/metrics` report, together with proofs of the behavioural
claims about them.
-/

set_option maxRecDepth 16384

namespace JamesHardie

/-- Does the character list `n` occur at the very start of `h`?
Building block for the Python substring test `n in h`. -/
def leadsChars : List Char → List Char → Bool
  | [], _ => true
  | _ :: _, [] => false
  | n :: ns, h :: hs => (n == h) && leadsChars ns hs

/-- Does the character list `n` occur (contiguously) anywhere in `h`? -/
def occursChars (n : List Char) : List Char → Bool
  | [] => leadsChars n []
  | c :: hs => leadsChars n (c :: hs) || occursChars n hs

/-- Python's substring membership test: `containsSub n h` models `n in h`. -/
def containsSub (needle hay : String) : Bool :=
  occursChars needle.data hay.data

/-- Python's `str.lower()` (ASCII case folding, as `Char.toLower` on each character). -/
def strLower (s : String) : String := ⟨s.data.map Char.toLower⟩

/-- Python's `str.strip()`: drop leading and trailing whitespace characters. -/
def strTrim (s : String) : String :=
  ⟨((s.data.dropWhile Char.isWhitespace).reverse.dropWhile Char.isWhitespace).reverse⟩

/-- The `hardieplank` entry of the knowledge-base dict (`app.py` lines 168-180). -/
structure HardieplankEntry where
  description : String
  installation : List String
  tools : List String
  fasteners : String

/-- The `hardietrim` entry of the knowledge-base dict (`app.py` lines 181-189). -/
structure HardietrimEntry where
  description : String
  installation : List String

/-- Shape of the `JAMES_HARDIE_KNOWLEDGE` dict (`app.py` lines 167-197). -/
structure KB where
  hardieplank : HardieplankEntry
  hardietrim : HardietrimEntry
  installation_general : List String

/-- The static knowledge base `JAMES_HARDIE_KNOWLEDGE` (`app.py` lines 167-197). -/
def JAMES_HARDIE_KNOWLEDGE : KB :=
  { hardieplank :=
      { description := "HardiePlank® lap siding is a fiber cement siding that combines the look of wood with superior durability and performance."
        installation :=
          [ "Start with proper wall preparation and moisture barrier",
            "Install starter strip at bottom of wall",
            "Cut siding with appropriate tools (circular saw with carbide blade)",
            "Maintain 1/4\x22 gap at all joints and penetrations",
            "Use corrosion-resistant fasteners (stainless steel or galvanized)",
            "Pre-drill holes for nails to prevent cracking" ]
        tools := ["Circular saw with carbide blade", "Drill", "Level", "Chalk line", "Safety equipment"]
        fasteners := "Use 6d or 8d galvanized or stainless steel siding nails" }
    hardietrim :=
      { description := "HardieTrim® boards provide clean lines and architectural detail with the durability of fiber cement."
        installation :=
          [ "Cut with carbide-tipped blade",
            "Pre-drill nail holes",
            "Maintain proper clearances from grade and rooflines",
            "Seal all cut edges with approved primer/paint" ]
      }
    installation_general :=
      [ "Always follow local building codes",
        "Maintain proper clearances (6\x22 from grade, 2\x22 from rooflines)",
        "Use proper flashing and weather barriers",
        "Prime and paint all cut edges within 60 days",
        "Store materials flat and off the ground" ]
  }

/-- Python `"\n".join(f"\x7bi+1\x7d. \x7bstep\x7d" for i, step in enumerate(steps))`:
1-indexed numbering of the steps, joined with newlines. -/
def numberSteps (steps : List String) : String :=
  String.intercalate "\n" (steps.enum.map (fun p => toString (p.1 + 1) ++ ". " ++ p.2))

/-- `get_quick_answer` (`app.py` lines 199-220), parameterised by the knowledge
base it reads (the source reads the global `JAMES_HARDIE_KNOWLEDGE`). -/
def get_quick_answerKB (kb : KB) (query : String) : Option String :=
  let query_lower := strLower query
  if containsSub "hardieplank" query_lower then
    if containsSub "install" query_lower then
      some ("HardiePlank installation key steps:\n" ++ numberSteps kb.hardieplank.installation)
    else if containsSub "tool" query_lower then
      some ("Tools needed for HardiePlank installation: " ++ String.intercalate ", " kb.hardieplank.tools)
    else
      some kb.hardieplank.description
  else if containsSub "hardietrim" query_lower then
    some kb.hardietrim.description
  else if ["install", "installation"].any (fun word => containsSub word query_lower) then
    some ("General James Hardie installation guidelines:\n" ++
      String.intercalate "\n" (kb.installation_general.map (fun step => "• " ++ step)))
  else
    none

/-- `get_quick_answer` applied to the global knowledge base. -/
def get_quick_answer (query : String) : Option String :=
  get_quick_answerKB JAMES_HARDIE_KNOWLEDGE query

example : (get_quick_answer "What is HardieTrim?") =
    some "HardieTrim® boards provide clean lines and architectural detail with the durability of fiber cement." := by
  decide

example : get_quick_answer "warranty terms" = none := by decide

/-- The two process-wide counters `request_count` and `error_count`
(`app.py` lines 50-51). -/
structure Metrics where
  requestsTotal : Nat
  errorsTotal : Nat
deriving DecidableEq, Repr

/-- One chat message dict `\x7brole, content\x7d` as passed to the providers. -/
structure Msg where
  role : String
  content : String
deriving DecidableEq, Repr

/-- The data extracted from a successful remote completion response:
`response.choices[0].message.content`, `response.model`, `response.usage`. -/
structure ProviderSuccess where
  content : String
  model : String
  prompt_tokens : Nat
  completion_tokens : Nat
  total_tokens : Nat
deriving DecidableEq, Repr

/-- Outcome of one remote `chat.completions.create` call: either a structured
response, or any raised exception (network, auth, malformed response), which
the source catches with `except Exception`. -/
inductive Attempt where
  | ok (p : ProviderSuccess)
  | raised
deriving DecidableEq, Repr

/-- The environment the chain runs in: whether `azure_client` / `openai_client`
are non-None (set once at startup), the outcome each remote call would have
for a given request, and the measured wall-clock elapsed time. -/
structure Env where
  azureConfigured : Bool
  openaiConfigured : Bool
  azureCall : List Msg → Nat → Attempt
  openaiCall : List Msg → Nat → Attempt
  elapsed : ℚ

/-- The `usage` sub-dict of a result. -/
structure Usage where
  prompt_tokens : Nat
  completion_tokens : Nat
  total_tokens : Nat
deriving DecidableEq, Repr

/-- The result dict produced by `generate_response` or by the quick-answer
path of `api_query`; optional keys are `Option`-valued (`none` = key absent). -/
structure CompletionResult where
  content : String
  provider : String
  model : Option String
  usage : Option Usage
  error : Option String
  response_time : ℚ
  cached : Option Bool
deriving DecidableEq, Repr

/-- Final fallback of `generate_response` (`app.py` lines 157-164): no AI
available, increment `error_count` and return the fixed unavailability dict. -/
def finalNone (env : Env) (m : Metrics) : CompletionResult × Metrics :=
  ( { content := "I\x27m temporarily unable to process your request. Please try again later."
      provider := "none"
      model := none
      usage := none
      error := some "No AI service available"
      response_time := env.elapsed
      cached := none },
    { m with errorsTotal := m.errorsTotal + 1 } )

/-- The standard-OpenAI fallback block of `generate_response`
(`app.py` lines 132-155): try `openai_client` if configured; on an exception
increment `error_count` and fall through to `finalNone`. -/
def generate_fallback (env : Env) (messages : List Msg) (max_tokens : Nat)
    (m : Metrics) : CompletionResult × Metrics :=
  if env.openaiConfigured then
    match env.openaiCall messages max_tokens with
    | .ok p =>
        ( { content := p.content
            provider := "openai"
            model := some p.model
            usage := some ⟨p.prompt_tokens, p.completion_tokens, p.total_tokens⟩
            error := none
            response_time := env.elapsed
            cached := none }, m )
    | .raised => finalNone env { m with errorsTotal := m.errorsTotal + 1 }
  else finalNone env m

/-- `generate_response` (`app.py` lines 100-164): increment `request_count` at
entry, try Azure OpenAI, on exception increment `error_count` and fall back. -/
def generate_response (env : Env) (messages : List Msg) (max_tokens : Nat)
    (m : Metrics) : CompletionResult × Metrics :=
  let m1 : Metrics := { m with requestsTotal := m.requestsTotal + 1 }
  if env.azureConfigured then
    match env.azureCall messages max_tokens with
    | .ok p =>
        ( { content := p.content
            provider := "azure_openai"
            model := some p.model
            usage := some ⟨p.prompt_tokens, p.completion_tokens, p.total_tokens⟩
            error := none
            response_time := env.elapsed
            cached := none }, m1 )
    | .raised => generate_fallback env messages max_tokens { m1 with errorsTotal := m1.errorsTotal + 1 }
  else generate_fallback env messages max_tokens m1

/-- The fixed system prompt built in `api_query` (`app.py` lines 368-392). -/
def system_prompt : String :=
  "You are a James Hardie technical expert assistant. Provide accurate, helpful information about James Hardie products including:\n\n- HardiePlank® lap siding\n- HardieTrim® boards  \n- HardiePanel® vertical siding\n- HardieSoffit® panels\n\nFocus on:\n- Installation procedures and best practices\n- Product specifications and compatibility\n- Tools and fasteners required\n- Troubleshooting common issues\n- Building code compliance\n- Safety considerations\n\nKeep responses concise but comprehensive. Always recommend following local building codes and manufacturer instructions."

/-- The message list `api_query` passes to `generate_response`. -/
def mkMessages (user_query : String) : List Msg :=
  [ { role := "system", content := system_prompt },
    { role := "user", content := user_query } ]

/-- The HTTP response of `/api/query`: a 400 client error with an error
message, a 500 server error, or a 200 response carrying a result dict. -/
inductive ApiResponse where
  | clientError (msg : String)
  | serverError (msg : String)
  | ok (r : CompletionResult)
deriving DecidableEq, Repr

/-- The HTTP status code of an `ApiResponse`. -/
def statusOf : ApiResponse → Nat
  | .clientError _ => 400
  | .serverError _ => 500
  | .ok _ => 200

/-- Python truthiness of an `Optional[str]`: `None` and `""` are falsy. -/
def truthyOptStr : Option String → Bool
  | none => false
  | some s => s != ""

/-- `api_query` (`app.py` lines 345-399): reject a missing or
whitespace-only query with a 400 before touching any state, try the quick
answer, and otherwise run the provider chain with the default 1500 max
tokens. -/
def api_query (env : Env) (m : Metrics) (body : Option String) :
    ApiResponse × Metrics :=
  match body with
  | none => (.clientError "No query provided", m)
  | some raw =>
    let user_query := strTrim raw
    if user_query = "" then (.clientError "Empty query", m)
    else
      let quick_answer := get_quick_answer user_query
      if truthyOptStr quick_answer then
        ( .ok { content := quick_answer.getD ""
                provider := "knowledge_base"
                model := none
                usage := none
                error := none
                response_time := (1 : ℚ) / 100
                cached := some true }, m )
      else
        let r := generate_response env (mkMessages user_query) 1500 m
        (.ok r.1, r.2)

/-- The body of the `/api/metrics` JSON (`app.py` lines 333-343). -/
structure MetricsView where
  requests_processed : Nat
  error_count : Nat
  error_rate : ℚ
  uptime : ℚ
  azure_configured : Bool
  openai_configured : Bool

/-- The `/api/metrics` handler (`app.py` lines 333-343): a pure read of the
counters; `now` models `time.time()`. -/
def metricsReport (env : Env) (now : ℚ) (m : Metrics) : MetricsView :=
  { requests_processed := m.requestsTotal
    error_count := m.errorsTotal
    error_rate := (m.errorsTotal : ℚ) / ((max m.requestsTotal 1 : Nat) : ℚ)
    uptime := now
    azure_configured := env.azureConfigured
    openai_configured := env.openaiConfigured }

/-- The mutable process-wide state: the counters and the knowledge-base dict
(a Python dict, mutable in principle; the source never writes to it). -/
structure AppState where
  kb : KB
  metrics : Metrics

/-- `get_quick_answer` as an operation on the process state: its body only
reads `JAMES_HARDIE_KNOWLEDGE` and assigns to no global, so the state passes
through unchanged. -/
def get_quick_answerS (s : AppState) (query : String) : Option String × AppState :=
  (get_quick_answerKB s.kb query, s)

/-- `N` consecutive invocations of `generate_response` threading the counters. -/
def genIter (env : Env) (messages : List Msg) (max_tokens : Nat) :
    Nat → Metrics → Metrics
  | 0, m => m
  | n + 1, m => genIter env messages max_tokens n (generate_response env messages max_tokens m).2

/-- An environment with both providers configured and every remote call
raising (e.g. bad credentials detected at call time). -/
def envBothFail : Env :=
  { azureConfigured := true
    openaiConfigured := true
    azureCall := fun _ _ => .raised
    openaiCall := fun _ _ => .raised
    elapsed := 2 / 10 }

/-- An environment with no provider configured at all. -/
def envNoneConf : Env :=
  { azureConfigured := false
    openaiConfigured := false
    azureCall := fun _ _ => .raised
    openaiCall := fun _ _ => .raised
    elapsed := 2 / 10 }

example :
    (generate_response envBothFail (mkMessages "q") 1500 ⟨0, 0⟩).2 = ⟨1, 3⟩ := by
  decide

example :
    (generate_response envNoneConf (mkMessages "q") 1500 ⟨0, 0⟩).2 = ⟨1, 1⟩ := by
  decide

example :
    get_quick_answer "How do I install HardiePlank siding?" =
      some "HardiePlank installation key steps:\n1. Start with proper wall preparation and moisture barrier\n2. Install starter strip at bottom of wall\n3. Cut siding with appropriate tools (circular saw with carbide blade)\n4. Maintain 1/4\x22 gap at all joints and penetrations\n5. Use corrosion-resistant fasteners (stainless steel or galvanized)\n6. Pre-drill holes for nails to prevent cracking" := by
  decide

/-- The resolver returns `none` on the empty query. -/
lemma get_quick_answer_empty : get_quick_answer "" = none := by decide

/-- Every value the resolver returns is a non-empty string: each branch
yields a string that starts with a non-empty literal. -/
lemma get_quick_answer_ne_empty (q a : String) (h : get_quick_answer q = some a) :
    a ≠ "" := by
  simp only [get_quick_answer, get_quick_answerKB] at h
  split at h
  · split at h
    · injection h with h
      subst h
      decide
    · split at h
      · injection h with h
        subst h
        decide
      · injection h with h
        subst h
        decide
  · split at h
    · injection h with h
      subst h
      decide
    · split at h
      · injection h with h
        subst h
        decide
      · exact Option.noConfusion h

/-- On a resolver hit, `api_query` returns the knowledge-base-wrapped answer
and leaves the counters untouched. -/
lemma api_query_quick_hit (env : Env) (m : Metrics) (q a : String)
    (h : get_quick_answer (strTrim q) = some a) :
    api_query env m (some q) =
      (.ok { content := a
             provider := "knowledge_base"
             model := none
             usage := none
             error := none
             response_time := (1 : ℚ) / 100
             cached := some true }, m) := by
  have hne : strTrim q ≠ "" := by
    intro he
    rw [he, get_quick_answer_empty] at h
    exact Option.noConfusion h
  have ha : a ≠ "" := get_quick_answer_ne_empty _ _ h
  simp [api_query, hne, h, truthyOptStr, ha]

/-- A single fully-failing invocation with both providers configured adds 1 to
the request counter and 3 to the error counter. -/
lemma gen_both_fail_metrics (env : Env) (messages : List Msg) (max_tokens : Nat)
    (m : Metrics) (h1 : env.azureConfigured = true) (h2 : env.openaiConfigured = true)
    (h3 : env.azureCall messages max_tokens = .raised)
    (h4 : env.openaiCall messages max_tokens = .raised) :
    (generate_response env messages max_tokens m).2 =
      ⟨m.requestsTotal + 1, m.errorsTotal + 3⟩ := by
  simp [generate_response, generate_fallback, finalNone, h1, h2, h3, h4]

/-- A single invocation with no provider configured adds 1 to each counter. -/
lemma gen_none_conf_metrics (env : Env) (messages : List Msg) (max_tokens : Nat)
    (m : Metrics) (h1 : env.azureConfigured = false) (h2 : env.openaiConfigured = false) :
    (generate_response env messages max_tokens m).2 =
      ⟨m.requestsTotal + 1, m.errorsTotal + 1⟩ := by
  simp [generate_response, generate_fallback, finalNone, h1, h2]

/-- Claim C1: for every query string, `get_quick_answer` evaluates
case-insensitive substring branches in the fixed order
hardieplank (install, then tool, then description), hardietrim,
install/installation, stopping at the first match: the hardieplank+install
branch returns the 1-indexed numbered installation steps joined with
newlines, the tool branch the comma-joined tool list with its fixed
introductory sentence, the remaining branches the plain descriptions, the
bullet-joined general guidelines, or `none`. -/
theorem c1_resolver_branch_order (q : String) :
    get_quick_answer q =
      (if containsSub "hardieplank" (strLower q) then
        if containsSub "install" (strLower q) then
          some ("HardiePlank installation key steps:\n" ++
            String.intercalate "\n"
              ((JAMES_HARDIE_KNOWLEDGE.hardieplank.installation.enum).map
                (fun p => toString (p.1 + 1) ++ ". " ++ p.2)))
        else if containsSub "tool" (strLower q) then
          some ("Tools needed for HardiePlank installation: " ++
            String.intercalate ", " JAMES_HARDIE_KNOWLEDGE.hardieplank.tools)
        else some JAMES_HARDIE_KNOWLEDGE.hardieplank.description
      else if containsSub "hardietrim" (strLower q) then
        some JAMES_HARDIE_KNOWLEDGE.hardietrim.description
      else if containsSub "install" (strLower q) || containsSub "installation" (strLower q) then
        some ("General James Hardie installation guidelines:\n" ++
          String.intercalate "\n"
            (JAMES_HARDIE_KNOWLEDGE.installation_general.map (fun step => "• " ++ step)))
      else none) := by
  simp [get_quick_answer, get_quick_answerKB, numberSteps]

/-- Claim C2 (counterexample): with both providers configured and both
failing, one provider-chain invocation increases the error counter by 3
(one per failed provider attempt plus the final no-AI-available increment),
not by 2 as claimed. -/
theorem c2_counterexample_double_count :
    (genIter envBothFail (mkMessages "Tell me about warranty terms") 1500 1 ⟨0, 0⟩).errorsTotal ≠ 2 * 1 := by
  decide

/-- Claim C2 (amended): after `N` consecutive fully-failing provider-chain
invocations the error counter has increased by exactly `3 * N` when both
providers are configured and both fail on each invocation (two per-attempt
increments plus the final unavailability increment), and by exactly `N`
when zero providers are configured. -/
theorem c2_error_counter_growth :
    (∀ (env : Env) (messages : List Msg) (max_tokens N : Nat) (m : Metrics),
        env.azureConfigured = true → env.openaiConfigured = true →
        env.azureCall messages max_tokens = .raised →
        env.openaiCall messages max_tokens = .raised →
        (genIter env messages max_tokens N m).errorsTotal = m.errorsTotal + 3 * N)
  ∧ (∀ (env : Env) (messages : List Msg) (max_tokens N : Nat) (m : Metrics),
        env.azureConfigured = false → env.openaiConfigured = false →
        (genIter env messages max_tokens N m).errorsTotal = m.errorsTotal + N) := by
  constructor
  · intro env messages max_tokens N m h1 h2 h3 h4
    induction N generalizing m with
    | zero => simp [genIter]
    | succ n ih =>
        have hm := gen_both_fail_metrics env messages max_tokens m h1 h2 h3 h4
        simp only [genIter, hm, ih]
        omega
  · intro env messages max_tokens N m h1 h2
    induction N generalizing m with
    | zero => simp [genIter]
    | succ n ih =>
        have hm := gen_none_conf_metrics env messages max_tokens m h1 h2
        simp only [genIter, hm, ih]
        omega

/-- Witness for the amended C2 theorem at two concrete invocations. -/
theorem c2_error_counter_growth_witness :
    (genIter envBothFail (mkMessages "q") 1500 2 ⟨0, 0⟩).errorsTotal = 0 + 3 * 2 ∧
    (genIter envNoneConf (mkMessages "q") 1500 2 ⟨0, 0⟩).errorsTotal = 0 + 2 :=
  ⟨c2_error_counter_growth.1 envBothFail (mkMessages "q") 1500 2 ⟨0, 0⟩ rfl rfl rfl rfl,
   c2_error_counter_growth.2 envNoneConf (mkMessages "q") 1500 2 ⟨0, 0⟩ rfl rfl⟩

/-- Claim C3: whenever the primary attempt fails or is unconfigured and the
secondary attempt fails or is unconfigured, `generate_response` increments
the error counter once more beyond the per-attempt increments and returns
the fixed unavailability message tagged provider `none`, with an
elapsed-time field and no usage data. -/
theorem c3_all_fail_unavailability (env : Env) (messages : List Msg)
    (max_tokens : Nat) (m : Metrics)
    (hA : env.azureConfigured = true → env.azureCall messages max_tokens = .raised)
    (hO : env.openaiConfigured = true → env.openaiCall messages max_tokens = .raised) :
    (generate_response env messages max_tokens m).1 =
      { content := "I\x27m temporarily unable to process your request. Please try again later."
        provider := "none"
        model := none
        usage := none
        error := some "No AI service available"
        response_time := env.elapsed
        cached := none } ∧
    (generate_response env messages max_tokens m).2.errorsTotal =
      m.errorsTotal + (if env.azureConfigured then 1 else 0) +
        (if env.openaiConfigured then 1 else 0) + 1 := by
  cases hac : env.azureConfigured with
  | false =>
      cases hoc : env.openaiConfigured with
      | false => simp [generate_response, generate_fallback, finalNone, hac, hoc]
      | true =>
          simp [generate_response, generate_fallback, finalNone, hac, hoc, hO hoc]
  | true =>
      cases hoc : env.openaiConfigured with
      | false =>
          simp [generate_response, generate_fallback, finalNone, hac, hoc, hA hac]
      | true =>
          simp [generate_response, generate_fallback, finalNone, hac, hoc, hA hac, hO hoc]

/-- Witness for C3 with both providers configured and both raising. -/
theorem c3_all_fail_unavailability_witness :
    (generate_response envBothFail (mkMessages "q") 1500 ⟨0, 0⟩).1 =
      { content := "I\x27m temporarily unable to process your request. Please try again later."
        provider := "none"
        model := none
        usage := none
        error := some "No AI service available"
        response_time := envBothFail.elapsed
        cached := none } ∧
    (generate_response envBothFail (mkMessages "q") 1500 ⟨0, 0⟩).2.errorsTotal =
      0 + (if envBothFail.azureConfigured then 1 else 0) +
        (if envBothFail.openaiConfigured then 1 else 0) + 1 :=
  c3_all_fail_unavailability envBothFail (mkMessages "q") 1500 ⟨0, 0⟩
    (fun _ => rfl) (fun _ => rfl)

/-- Claim C4: `generate_response` never raises to its caller: for every
message list, max-token count, environment and counter state it returns a
result dict, whose provider tag is one of `azure_openai`, `openai`, `none`
(one per execution path), each carrying content and a response time. -/
theorem c4_chain_never_raises (env : Env) (messages : List Msg)
    (max_tokens : Nat) (m : Metrics) :
    (generate_response env messages max_tokens m).1.provider = "azure_openai" ∨
    (generate_response env messages max_tokens m).1.provider = "openai" ∨
    (generate_response env messages max_tokens m).1.provider = "none" := by
  unfold generate_response generate_fallback finalNone
  cases env.azureConfigured with
  | false =>
      cases env.openaiConfigured with
      | false => simp
      | true => cases env.openaiCall messages max_tokens <;> simp
  | true =>
      cases env.azureCall messages max_tokens with
      | ok p => simp
      | raised =>
          cases env.openaiConfigured with
          | false => simp
          | true => cases env.openaiCall messages max_tokens <;> simp

/-- The fallback half of the chain never changes the request counter. -/
lemma generate_fallback_requests (env : Env) (messages : List Msg)
    (max_tokens : Nat) (m : Metrics) :
    (generate_fallback env messages max_tokens m).2.requestsTotal = m.requestsTotal := by
  unfold generate_fallback finalNone
  cases env.openaiConfigured with
  | false => simp
  | true => cases env.openaiCall messages max_tokens <;> simp

/-- Claim C5: every invocation of `generate_response` increments the request
counter by exactly one at chain entry, however many provider attempts fail;
and no other core operation — missing-body rejection, empty-query
rejection, a resolver hit — changes the counters. -/
theorem c5_request_counter_frame :
    (∀ (env : Env) (messages : List Msg) (max_tokens : Nat) (m : Metrics),
        (generate_response env messages max_tokens m).2.requestsTotal = m.requestsTotal + 1)
  ∧ (∀ (env : Env) (m : Metrics), (api_query env m none).2 = m)
  ∧ (∀ (env : Env) (m : Metrics) (q : String), strTrim q = "" →
        (api_query env m (some q)).2 = m)
  ∧ (∀ (env : Env) (m : Metrics) (q a : String),
        get_quick_answer (strTrim q) = some a → (api_query env m (some q)).2 = m) := by
  refine ⟨?_, ?_, ?_, ?_⟩
  · intro env messages max_tokens m
    unfold generate_response
    cases env.azureConfigured with
    | false => simp [generate_fallback_requests]
    | true =>
        cases env.azureCall messages max_tokens with
        | ok p => simp
        | raised => simp [generate_fallback_requests]
  · intro env m
    rfl
  · intro env m q h
    simp [api_query, h]
  · intro env m q a h
    rw [api_query_quick_hit env m q a h]

/-- Witness for C5 at a whitespace-only query and at a resolver hit. -/
theorem c5_request_counter_frame_witness :
    (api_query envNoneConf ⟨5, 2⟩ (some "   ")).2 = ⟨5, 2⟩ ∧
    (api_query envNoneConf ⟨5, 2⟩ (some "What is HardieTrim?")).2 = ⟨5, 2⟩ :=
  ⟨c5_request_counter_frame.2.2.1 envNoneConf ⟨5, 2⟩ "   " (by decide),
   c5_request_counter_frame.2.2.2 envNoneConf ⟨5, 2⟩ "What is HardieTrim?"
     JAMES_HARDIE_KNOWLEDGE.hardietrim.description (by decide)⟩

/-- Claim C6: a query that is empty after trimming whitespace is rejected
with the `Empty query` client error (HTTP 400) before the provider chain is
invoked, and both counters are unchanged. -/
theorem c6_empty_query_rejected (env : Env) (m : Metrics) (q : String)
    (h : strTrim q = "") :
    api_query env m (some q) = (.clientError "Empty query", m) ∧
    statusOf (api_query env m (some q)).1 = 400 := by
  have h1 : api_query env m (some q) = (.clientError "Empty query", m) := by
    simp [api_query, h]
  exact ⟨h1, by rw [h1]; rfl⟩

/-- Witness for C6 at a whitespace-only input. -/
theorem c6_empty_query_rejected_witness :
    strTrim " \t " = "" ∧
    api_query envNoneConf ⟨3, 1⟩ (some " \t ") = (.clientError "Empty query", ⟨3, 1⟩) ∧
    statusOf (api_query envNoneConf ⟨3, 1⟩ (some " \t ")).1 = 400 :=
  ⟨by decide,
   (c6_empty_query_rejected envNoneConf ⟨3, 1⟩ " \t " (by decide)).1,
   (c6_empty_query_rejected envNoneConf ⟨3, 1⟩ " \t " (by decide)).2⟩

/-- Claim C7: on a resolver hit, `api_query` returns the value wrapped with
provider `knowledge_base`, the fixed near-zero response time 0.01 and
`cached = true`, without invoking the provider chain; in particular
`What is HardieTrim?` yields exactly the fixed HardieTrim description. -/
theorem c7_quick_answer_path :
    (∀ (env : Env) (m : Metrics) (q a : String),
        get_quick_answer (strTrim q) = some a →
        api_query env m (some q) =
          (.ok { content := a
                 provider := "knowledge_base"
                 model := none
                 usage := none
                 error := none
                 response_time := (1 : ℚ) / 100
                 cached := some true }, m))
  ∧ (∀ (env : Env) (m : Metrics),
        api_query env m (some "What is HardieTrim?") =
          (.ok { content := "HardieTrim® boards provide clean lines and architectural detail with the durability of fiber cement."
                 provider := "knowledge_base"
                 model := none
                 usage := none
                 error := none
                 response_time := (1 : ℚ) / 100
                 cached := some true }, m)) := by
  constructor
  · intro env m q a h
    exact api_query_quick_hit env m q a h
  · intro env m
    exact api_query_quick_hit env m "What is HardieTrim?" _ (by decide)

/-- Witness for C7 at a concrete tools query. -/
theorem c7_quick_answer_path_witness :
    get_quick_answer (strTrim "hardieplank tools?") =
      some "Tools needed for HardiePlank installation: Circular saw with carbide blade, Drill, Level, Chalk line, Safety equipment" ∧
    api_query envNoneConf ⟨0, 0⟩ (some "hardieplank tools?") =
      (.ok { content := "Tools needed for HardiePlank installation: Circular saw with carbide blade, Drill, Level, Chalk line, Safety equipment"
             provider := "knowledge_base"
             model := none
             usage := none
             error := none
             response_time := (1 : ℚ) / 100
             cached := some true }, ⟨0, 0⟩) :=
  ⟨by decide,
   c7_quick_answer_path.1 envNoneConf ⟨0, 0⟩ "hardieplank tools?"
     "Tools needed for HardiePlank installation: Circular saw with carbide blade, Drill, Level, Chalk line, Safety equipment"
     (by decide)⟩

/-- Claim C8: the metrics report computes `error_rate` as the error counter
divided by `max(requestsTotal, 1)`; with 3 requests and 1 error it reports
1/3, and with 0 requests the denominator is 1. -/
theorem c8_error_rate :
    (∀ (env : Env) (now : ℚ) (m : Metrics),
        (metricsReport env now m).error_rate =
          (m.errorsTotal : ℚ) / ((max m.requestsTotal 1 : Nat) : ℚ))
  ∧ (∀ (env : Env) (now : ℚ), (metricsReport env now ⟨3, 1⟩).error_rate = 1 / 3)
  ∧ (∀ (env : Env) (now : ℚ) (e : Nat),
        (metricsReport env now ⟨0, e⟩).error_rate = (e : ℚ) / 1) := by
  refine ⟨fun env now m => rfl, fun env now => ?_, fun env now e => ?_⟩
  · norm_num [metricsReport]
  · norm_num [metricsReport]

/-- Claim C9: the resolver is deterministic and idempotent as an operation
on the process state: it leaves the state unchanged (its body performs no
assignment), and a second call from the resulting state returns the same
answer. -/
theorem c9_resolver_idempotent (s : AppState) (q : String) :
    (get_quick_answerS s q).2 = s ∧
    (get_quick_answerS (get_quick_answerS s q).2 q).1 = (get_quick_answerS s q).1 ∧
    (get_quick_answerS (get_quick_answerS s q).2 q).2 = s :=
  ⟨rfl, rfl, rfl⟩

/-- Claim C10: every value the resolver returns is a non-empty string, so
the Python truthiness test in `api_query` classifies every hit as truthy
and a hit never falls through to the provider chain. -/
theorem c10_hits_truthy_no_fallthrough :
    (∀ (q a : String), get_quick_answer q = some a → a ≠ "")
  ∧ (∀ (q a : String), get_quick_answer q = some a →
        truthyOptStr (get_quick_answer q) = true)
  ∧ (∀ (env : Env) (m : Metrics) (q a : String),
        get_quick_answer (strTrim q) = some a →
        ∃ r, api_query env m (some q) = (.ok r, m) ∧ r.provider = "knowledge_base") := by
  refine ⟨get_quick_answer_ne_empty, ?_, ?_⟩
  · intro q a h
    rw [h]
    simpa [truthyOptStr] using get_quick_answer_ne_empty q a h
  · intro env m q a h
    exact ⟨_, api_query_quick_hit env m q a h, rfl⟩

/-- Witness for C10 at a concrete hardietrim query. -/
theorem c10_hits_truthy_no_fallthrough_witness :
    get_quick_answer "hardietrim" = some JAMES_HARDIE_KNOWLEDGE.hardietrim.description ∧
    JAMES_HARDIE_KNOWLEDGE.hardietrim.description ≠ "" ∧
    truthyOptStr (get_quick_answer "hardietrim") = true :=
  ⟨by decide,
   c10_hits_truthy_no_fallthrough.1 "hardietrim"
     JAMES_HARDIE_KNOWLEDGE.hardietrim.description (by decide),
   c10_hits_truthy_no_fallthrough.2.1 "hardietrim"
     JAMES_HARDIE_KNOWLEDGE.hardietrim.description (by decide)⟩

end JamesHardie
